import Mathlib

/-!
Shallow embedding of `src/omegacn7500.py`, the driver for the Omega CN7500
process controller built on top of the minimalmodbus transport layer.

Modelling choices:
* Register values travel as rationals (`ℚ`); the device scaling by `10 ^ decimals`
  happens inside the external transport and is recorded only through the
  `decimals` argument of each call, exactly as the Python driver passes it.
* Pattern / step / integer-valued parameters are `ℤ` (Python ints); setpoint and
  time values are `ℚ` (Python numbers).
* Each driver operation is a function `Machine → Except Err α × List Call × Machine`:
  the result (or raised error), the ordered list of transport calls it made, and
  the updated mock transport state.  The mock transport is idempotent: a write
  stores the value, a read returns the stored value.
* Python list indexing (including negative indices) is embedded by `pyIndex`;
  an out-of-range index raises `Err.indexError`, as Python's `IndexError`.
* Operations that return a Python string sentinel or fall through to `None`
  return a `PyVal` (`num`, `str`, or `none`), mirroring the dynamic result type
  of those Python methods.
-/

/-- Python list indexing semantics: `l[i]` with negative-index wraparound;
`Option.none` is an `IndexError`. -/
def pyIndex {α : Type} (l : List α) (i : ℤ) : Option α :=
  if 0 ≤ i ∧ i < l.length then l.get? i.toNat
  else if -(l.length : ℤ) ≤ i ∧ i < 0 then l.get? (l.length - (-i).toNat)
  else none

/-- Python 2 `range(a, b)` as a list of register addresses. -/
def pyRange (a b : ℕ) : List ℕ :=
  (List.range (b - a)).map (fun k => a + k)

/-- Source line 44: `setpoint_addresses = range(8192,8200),range(8200,8208),...`. -/
def setpoint_addresses : List (List ℕ) :=
  [pyRange 8192 8200, pyRange 8200 8208, pyRange 8208 8216, pyRange 8216 8224,
   pyRange 8224 8232, pyRange 8232 8240, pyRange 8240 8248, pyRange 8248 8256]

/-- Source line 45: `time_addresses = range(8320, 8328),...`. -/
def time_addresses : List (List ℕ) :=
  [pyRange 8320 8328, pyRange 8328 8336, pyRange 8336 8344, pyRange 8344 8352,
   pyRange 8352 8360, pyRange 8360 8368, pyRange 8368 8376, pyRange 8376 8384]

/-- Source line 46: `actual_step_addresses = range(4160, 4168)`. -/
def actual_step_addresses : List ℕ := pyRange 4160 4168

/-- Source line 47: `additional_cycles_addresses = range(4176, 4184)`. -/
def additional_cycles_addresses : List ℕ := pyRange 4176 4184

/-- Source line 48: `link_pattern_addresses = range(4192, 4200)`. -/
def link_pattern_addresses : List ℕ := pyRange 4192 4200

/-- Source line 51: the `CONTROL_MODES` dict, as a lookup on the value read
from the device (Python dict lookup with int keys on the numeric readback). -/
def CONTROL_MODES (v : ℚ) : Option String :=
  if v = 0 then some "PID"
  else if v = 1 then some "ON/OFF"
  else if v = 2 then some "Manual Tuning"
  else if v = 3 then some "Program"
  else none

/-- Source line 53. -/
def SETPOINT_MAX : ℚ := 999.9

/-- Source line 57. -/
def TIME_MAX : ℚ := 900

/-- Error kinds raised by the driver.  Validation failures
(minimalmodbus `_checkInt` / `_checkNumerical` raising `ValueError`) are
`invalidArgument`; the unparseable-control-mode `ValueError` of
`get_control_mode` is `parseError`; a Python `IndexError` from list indexing is
`indexError`. -/
inductive Err : Type
  | invalidArgument (description : String)
  | parseError (msg : String)
  | indexError
  deriving DecidableEq, Repr

/-- One call into the external minimalmodbus transport. -/
inductive Call : Type
  | readReg (addr dec : ℕ)
  | writeReg (addr : ℕ) (value : ℚ) (dec : ℕ)
  | readBit (addr : ℕ)
  | writeBit (addr value : ℕ)
  deriving DecidableEq, Repr

/-- Mock transport state: register file and coil file. -/
structure Machine : Type where
  regs : ℕ → ℚ
  bits : ℕ → ℕ

/-- Driver computations: result or raised error, transport-call trace,
updated mock state. -/
def M (α : Type) : Type := Machine → Except Err α × List Call × Machine

def Mpure {α : Type} (a : α) : M α := fun m => (.ok a, [], m)

def Mbind {α β : Type} (x : M α) (f : α → M β) : M β := fun m =>
  match x m with
  | (.ok a, cs, m1) =>
      let r := f a m1
      (r.1, cs ++ r.2.1, r.2.2)
  | (.error e, cs, m1) => (.error e, cs, m1)

instance : Monad M where
  pure := Mpure
  bind := Mbind

/-- Raising a Python exception: no transport call, no state change. -/
def throwErr {α : Type} (e : Err) : M α := fun m => (.error e, [], m)

/-- Modelled from the spec: the external Transport primitive
`read_register(address, decimals) -> number` (spec section 6); the mock returns
the stored register value.  The Python call sites that omit `decimals` use the
minimalmodbus default of 0 decimals, per the spec's register map. -/
def read_register (addr : ℕ) (dec : ℕ) : M ℚ := fun m =>
  (.ok (m.regs addr), [.readReg addr dec], m)

/-- Modelled from the spec: the external Transport primitive
`write_register(address, value, decimals)` (spec section 6); the mock stores
the value. -/
def write_register (addr : ℕ) (v : ℚ) (dec : ℕ) : M Unit := fun m =>
  (.ok (), [.writeReg addr v dec],
    { m with regs := fun a => if a = addr then v else m.regs a })

/-- Modelled from the spec: the external Transport primitive
`read_bit(address) -> 0|1` (spec section 6). -/
def read_bit (addr : ℕ) : M ℕ := fun m =>
  (.ok (m.bits addr), [.readBit addr], m)

/-- Modelled from the spec: the external Transport primitive
`write_bit(address, value)` (spec section 6). -/
def write_bit (addr v : ℕ) : M Unit := fun m =>
  (.ok (), [.writeBit addr v],
    { m with bits := fun a => if a = addr then v else m.bits a })

/-- Modelled from the spec: `minimalmodbus._checkInt(value, minvalue, maxvalue,
description)` — a pure validator that raises `InvalidArgument` when the integer
is outside the bounds (spec section 4.2), before any I/O. -/
def _checkInt (v minv maxv : ℤ) (description : String) : M Unit :=
  if v < minv ∨ maxv < v then throwErr (.invalidArgument description) else Mpure ()

/-- Modelled from the spec: `minimalmodbus._checkNumerical(value, minvalue,
maxvalue, description)` — a pure validator that raises `InvalidArgument` when
the numerical value is outside the bounds (spec section 4.2), before any I/O. -/
def _checkNumerical (v minv maxv : ℚ) (description : String) : M Unit :=
  if v < minv ∨ maxv < v then throwErr (.invalidArgument description) else Mpure ()

/-- Source line 441: `_checkPatternNumber`. -/
def _checkPatternNumber (patternnumber : ℤ) : M Unit :=
  _checkInt patternnumber 0 7 "pattern number"

/-- Source line 444: `_checkStepNumber`. -/
def _checkStepNumber (stepnumber : ℤ) : M Unit :=
  _checkInt stepnumber 0 7 "step number"

/-- Source line 447: `_checkSetpointValue`. -/
def _checkSetpointValue (setpointvalue maxvalue : ℚ) : M Unit :=
  _checkNumerical setpointvalue 0 maxvalue "setpoint value"

/-- Source line 450: `_checkTimeValue`. -/
def _checkTimeValue (timevalue maxvalue : ℚ) : M Unit :=
  _checkNumerical timevalue 0 maxvalue "time value"

/-- Python list indexing inside the driver; failure is an `IndexError`. -/
def pyIndexM {α : Type} (l : List α) (i : ℤ) : M α :=
  match pyIndex l i with
  | some a => Mpure a
  | none => throwErr .indexError

/-- Dynamic result of the Python methods that can return a number, a sentinel
string, or fall through to `None`. -/
inductive PyVal : Type
  | num (q : ℚ)
  | str (s : String)
  | none
  deriving DecidableEq, Repr

/-- Instance attributes set in `OmegaCN7500.__init__`: the configurable maxima. -/
structure Inst : Type where
  setpoint_max : ℚ := SETPOINT_MAX
  time_max : ℚ := TIME_MAX

namespace OmegaCN7500

/-- `get_pv`: read register 4096 with 1 decimal. -/
def get_pv : M ℚ := read_register 4096 1

/-- `run`: write bit 2068 to 1. -/
def run : M Unit := write_bit 2068 1

/-- `stop`: write bit 2068 to 0. -/
def stop : M Unit := write_bit 2068 0

/-- `is_running`: read bit 2068 and compare with 1. -/
def is_running : M Bool := Mbind (read_bit 2068) (fun b => Mpure (b == 1))

/-- `get_setpoint`: read register 4097 with 1 decimal. -/
def get_setpoint : M ℚ := read_register 4097 1

/-- `set_setpoint`: validate then write register 4097 with 1 decimal. -/
def set_setpoint (inst : Inst) (value : ℚ) : M Unit := do
  _checkSetpointValue value inst.setpoint_max
  write_register 4097 value 1

/-- `get_control_mode`: read register 4101 (default 0 decimals), look the value
up in `CONTROL_MODES`, raise a parse `ValueError` on a missing key. -/
def get_control_mode : M String := do
  let mode_value ← read_register 4101 0
  match CONTROL_MODES mode_value with
  | some s => Mpure s
  | Option.none => throwErr (.parseError "Could not parse the control mode value")

/-- `set_control_mode`: validate the code is in 0..3 then write register 4101
(default 0 decimals). -/
def set_control_mode (value : ℤ) : M Unit := do
  _checkInt value 0 3 "control mode"
  write_register 4101 (value : ℚ) 0

/-- `get_start_pattern_no`: read register 4144 with 0 decimals. -/
def get_start_pattern_no : M ℚ := read_register 4144 0

/-- `set_start_pattern_no`: validate the pattern number then write register
4144 with 0 decimals. -/
def set_start_pattern_no (value : ℤ) : M Unit := do
  _checkPatternNumber value
  write_register 4144 (value : ℚ) 0

/-- `get_pattern_step_setpoint`. -/
def get_pattern_step_setpoint (pattern step : ℤ) : M ℚ := do
  _checkPatternNumber pattern
  _checkStepNumber step
  let row ← pyIndexM setpoint_addresses pattern
  let address ← pyIndexM row step
  read_register address 1

/-- `set_pattern_step_setpoint`. -/
def set_pattern_step_setpoint (inst : Inst) (pattern step : ℤ) (value : ℚ) :
    M Unit := do
  _checkPatternNumber pattern
  _checkStepNumber step
  _checkSetpointValue value inst.setpoint_max
  let row ← pyIndexM setpoint_addresses pattern
  let address ← pyIndexM row step
  write_register address value 1

/-- `get_pattern_step_time`. -/
def get_pattern_step_time (pattern step : ℤ) : M ℚ := do
  _checkPatternNumber pattern
  _checkStepNumber step
  let row ← pyIndexM time_addresses pattern
  let address ← pyIndexM row step
  read_register address 0

/-- `set_pattern_step_time`. -/
def set_pattern_step_time (inst : Inst) (pattern step : ℤ) (value : ℚ) :
    M Unit := do
  _checkPatternNumber pattern
  _checkStepNumber step
  _checkTimeValue value inst.time_max
  let row ← pyIndexM time_addresses pattern
  let address ← pyIndexM row step
  write_register address value 0

/-- `get_pattern_actual_step`: in-range patterns read the register; the
out-of-range branch returns a sentinel string (not an exception). -/
def get_pattern_actual_step (pattern : ℤ) : M PyVal :=
  if 0 ≤ pattern ∧ pattern ≤ 7 then do
    let address ← pyIndexM actual_step_addresses pattern
    let v ← read_register address 0
    Mpure (.num v)
  else Mpure (.str "Not a valid pattern number, must be 0-7")

/-- `set_pattern_actual_step`: writes when both arguments are in range; the
`elif` branches return sentinel strings, mirroring the Python control flow. -/
def set_pattern_actual_step (pattern value : ℤ) : M PyVal :=
  if (0 ≤ pattern ∧ pattern ≤ 7) ∧ (0 ≤ value ∧ value ≤ 7) then do
    let address ← pyIndexM actual_step_addresses pattern
    write_register address (value : ℚ) 0
    Mpure PyVal.none
  else if ¬(0 ≤ pattern ∧ pattern < 8) then
    Mpure (.str "Not a valid pattern number, must be 0-7")
  else if ¬(0 ≤ value ∧ value < 8) then
    Mpure (.str "Not a valid step number, must be 0-7")
  else Mpure PyVal.none

/-- `get_pattern_additional_cycles`: read with default 0 decimals, or return a
sentinel string for an out-of-range pattern. -/
def get_pattern_additional_cycles (pattern : ℤ) : M PyVal :=
  if 0 ≤ pattern ∧ pattern ≤ 7 then do
    let address ← pyIndexM additional_cycles_addresses pattern
    let v ← read_register address 0
    Mpure (.num v)
  else Mpure (.str "Not a valid pattern number, must be 0-7")

/-- `set_pattern_additional_cycles`: note the asymmetric final `elif value > 99`
of the source — a negative value matches no branch and the method falls through
to Python's implicit `None`. -/
def set_pattern_additional_cycles (pattern value : ℤ) : M PyVal :=
  if (0 ≤ pattern ∧ pattern ≤ 7) ∧ (0 ≤ value ∧ value ≤ 99) then do
    let address ← pyIndexM additional_cycles_addresses pattern
    write_register address (value : ℚ) 0
    Mpure PyVal.none
  else if ¬(0 ≤ pattern ∧ pattern < 8) then
    Mpure (.str "Not a valid pattern number, must be 0-7")
  else if 99 < value then
    Mpure (.str "Not a valid number of additional cycles, must be 0-99")
  else Mpure PyVal.none

/-- `get_pattern_link_topattern`. -/
def get_pattern_link_topattern (pattern : ℤ) : M PyVal :=
  if 0 ≤ pattern ∧ pattern ≤ 7 then do
    let address ← pyIndexM link_pattern_addresses pattern
    let v ← read_register address 0
    Mpure (.num v)
  else Mpure (.str "Not a valid pattern number, must be 0-7")

/-- `set_pattern_link_topattern`: value 8 means link OFF. -/
def set_pattern_link_topattern (pattern value : ℤ) : M PyVal :=
  if (0 ≤ pattern ∧ pattern ≤ 7) ∧ (0 ≤ value ∧ value ≤ 8) then do
    let address ← pyIndexM link_pattern_addresses pattern
    write_register address (value : ℚ) 0
    Mpure PyVal.none
  else if ¬(0 ≤ pattern ∧ pattern < 8) then
    Mpure (.str "Not a valid pattern number, must be 0-7")
  else if ¬(0 ≤ value ∧ value < 9) then
    Mpure (.str "Not a valid value, must be pattern 0-7 or 8 for OFF")
  else Mpure PyVal.none

/-- `get_all_pattern_variables`: for an in-range pattern, resolve the 19
addresses, read all 19 registers, print them to stdout and return `None`; for
an out-of-range pattern the `if` has no `else`, so the method returns `None`
without any transport call. -/
def get_all_pattern_variables (pattern : ℤ) : M PyVal :=
  if 0 ≤ pattern ∧ pattern ≤ 7 then do
    let sprow ← pyIndexM setpoint_addresses pattern
    let sp0_address ← pyIndexM sprow 0
    let sp1_address ← pyIndexM sprow 1
    let sp2_address ← pyIndexM sprow 2
    let sp3_address ← pyIndexM sprow 3
    let sp4_address ← pyIndexM sprow 4
    let sp5_address ← pyIndexM sprow 5
    let sp6_address ← pyIndexM sprow 6
    let sp7_address ← pyIndexM sprow 7
    let tirow ← pyIndexM time_addresses pattern
    let ti0_address ← pyIndexM tirow 0
    let ti1_address ← pyIndexM tirow 1
    let ti2_address ← pyIndexM tirow 2
    let ti3_address ← pyIndexM tirow 3
    let ti4_address ← pyIndexM tirow 4
    let ti5_address ← pyIndexM tirow 5
    let ti6_address ← pyIndexM tirow 6
    let ti7_address ← pyIndexM tirow 7
    let actual_step_address ← pyIndexM actual_step_addresses pattern
    let additional_cycles_address ← pyIndexM additional_cycles_addresses pattern
    let link_pattern_address ← pyIndexM link_pattern_addresses pattern
    let _sp0 ← read_register sp0_address 1
    let _sp1 ← read_register sp1_address 1
    let _sp2 ← read_register sp2_address 1
    let _sp3 ← read_register sp3_address 1
    let _sp4 ← read_register sp4_address 1
    let _sp5 ← read_register sp5_address 1
    let _sp6 ← read_register sp6_address 1
    let _sp7 ← read_register sp7_address 1
    let _ti0 ← read_register ti0_address 0
    let _ti1 ← read_register ti1_address 0
    let _ti2 ← read_register ti2_address 0
    let _ti3 ← read_register ti3_address 0
    let _ti4 ← read_register ti4_address 0
    let _ti5 ← read_register ti5_address 0
    let _ti6 ← read_register ti6_address 0
    let _ti7 ← read_register ti7_address 0
    let _actual_step ← read_register actual_step_address 0
    let _additional_cycles ← read_register additional_cycles_address 0
    let _link_pattern ← read_register link_pattern_address 0
    Mpure PyVal.none
  else Mpure PyVal.none

/-- `set_all_pattern_variables`: no validation at all — all 19 addresses are
resolved by raw list indexing (a Python negative pattern wraps around; 8 or
above raises `IndexError`), then all 19 registers are written unconditionally.
Parameter order follows the source signature. -/
def set_all_pattern_variables (pattern : ℤ)
    (sp0 ti0 sp1 ti1 sp2 ti2 sp3 ti3 sp4 ti4 sp5 ti5 sp6 ti6 sp7 ti7 : ℚ)
    (actual_step additional_cycles link_pattern : ℤ) : M Unit := do
  let sprow ← pyIndexM setpoint_addresses pattern
  let sp0_address ← pyIndexM sprow 0
  let sp1_address ← pyIndexM sprow 1
  let sp2_address ← pyIndexM sprow 2
  let sp3_address ← pyIndexM sprow 3
  let sp4_address ← pyIndexM sprow 4
  let sp5_address ← pyIndexM sprow 5
  let sp6_address ← pyIndexM sprow 6
  let sp7_address ← pyIndexM sprow 7
  let tirow ← pyIndexM time_addresses pattern
  let ti0_address ← pyIndexM tirow 0
  let ti1_address ← pyIndexM tirow 1
  let ti2_address ← pyIndexM tirow 2
  let ti3_address ← pyIndexM tirow 3
  let ti4_address ← pyIndexM tirow 4
  let ti5_address ← pyIndexM tirow 5
  let ti6_address ← pyIndexM tirow 6
  let ti7_address ← pyIndexM tirow 7
  let actual_step_address ← pyIndexM actual_step_addresses pattern
  let additional_cycles_address ← pyIndexM additional_cycles_addresses pattern
  let link_pattern_address ← pyIndexM link_pattern_addresses pattern
  write_register sp0_address sp0 1
  write_register sp1_address sp1 1
  write_register sp2_address sp2 1
  write_register sp3_address sp3 1
  write_register sp4_address sp4 1
  write_register sp5_address sp5 1
  write_register sp6_address sp6 1
  write_register sp7_address sp7 1
  write_register ti0_address ti0 0
  write_register ti1_address ti1 0
  write_register ti2_address ti2 0
  write_register ti3_address ti3 0
  write_register ti4_address ti4 0
  write_register ti5_address ti5 0
  write_register ti6_address ti6 0
  write_register ti7_address ti7 0
  write_register actual_step_address (actual_step : ℚ) 0
  write_register additional_cycles_address (additional_cycles : ℚ) 0
  write_register link_pattern_address (link_pattern : ℚ) 0

/-- `get_output1`: read register 0x1012 with 1 decimal. -/
def get_output1 : M ℚ := read_register 0x1012 1

end OmegaCN7500

/-- Result component of running an operation on a mock transport state. -/
def runRes {α : Type} (x : M α) (m : Machine) : Except Err α := (x m).1

/-- Transport-call trace of running an operation. -/
def runCalls {α : Type} (x : M α) (m : Machine) : List Call := (x m).2.1

/-- Final mock transport state after running an operation. -/
def runMachine {α : Type} (x : M α) (m : Machine) : Machine := (x m).2.2

/-- A zeroed mock transport state. -/
def m0 : Machine := ⟨fun _ => 0, fun _ => 0⟩

instance {ε α : Type} [DecidableEq ε] [DecidableEq α] : DecidableEq (Except ε α) := fun a b =>
  match a, b with
  | .ok x, .ok y =>
      if h : x = y then isTrue (by rw [h]) else isFalse (by intro hc; cases hc; exact h rfl)
  | .error x, .error y =>
      if h : x = y then isTrue (by rw [h]) else isFalse (by intro hc; cases hc; exact h rfl)
  | .ok _, .error _ => isFalse (by intro hc; cases hc)
  | .error _, .ok _ => isFalse (by intro hc; cases hc)

/-- Two-level table lookup `table[pattern][step]` exactly as the driver
performs it by Python list indexing. -/
def stepAddr (table : List (List ℕ)) (p s : ℤ) : Option ℕ :=
  (pyIndex table p).bind (fun row => pyIndex row s)

lemma checkInt_pass {v minv maxv : ℤ} (d : String) (h0 : minv ≤ v) (h1 : v ≤ maxv) :
    _checkInt v minv maxv d = Mpure () := by
  simp only [_checkInt]
  rw [if_neg]
  push_neg
  exact ⟨h0, h1⟩

lemma checkInt_fail {v minv maxv : ℤ} (d : String) (h : v < minv ∨ maxv < v) :
    _checkInt v minv maxv d = throwErr (.invalidArgument d) := by
  simp only [_checkInt]
  rw [if_pos h]

lemma checkNumerical_pass {v minv maxv : ℚ} (d : String) (h0 : minv ≤ v) (h1 : v ≤ maxv) :
    _checkNumerical v minv maxv d = Mpure () := by
  simp only [_checkNumerical]
  rw [if_neg]
  push_neg
  exact ⟨h0, h1⟩

lemma checkNumerical_fail {v minv maxv : ℚ} (d : String) (h : v < minv ∨ maxv < v) :
    _checkNumerical v minv maxv d = throwErr (.invalidArgument d) := by
  simp only [_checkNumerical]
  rw [if_pos h]

lemma set_sp_ok (inst : Inst) (m : Machine) (p s : ℤ) (v : ℚ)
    (hp0 : 0 ≤ p) (hp1 : p ≤ 7) (hs0 : 0 ≤ s) (hs1 : s ≤ 7)
    (hv0 : 0 ≤ v) (hv1 : v ≤ inst.setpoint_max) :
    runRes (OmegaCN7500.set_pattern_step_setpoint inst p s v) m = .ok () ∧
    runCalls (OmegaCN7500.set_pattern_step_setpoint inst p s v) m =
      [.writeReg (8192 + 8 * p.toNat + s.toNat) v 1] := by
  interval_cases p <;> interval_cases s <;>
    (simp only [OmegaCN7500.set_pattern_step_setpoint, _checkSetpointValue]
     rw [checkNumerical_pass _ hv0 hv1]
     exact ⟨rfl, rfl⟩)

lemma set_sp_fail (inst : Inst) (m : Machine) (p s : ℤ) (v : ℚ)
    (hp0 : 0 ≤ p) (hp1 : p ≤ 7) (hs0 : 0 ≤ s) (hs1 : s ≤ 7)
    (hv : v < 0 ∨ inst.setpoint_max < v) :
    runRes (OmegaCN7500.set_pattern_step_setpoint inst p s v) m =
      .error (.invalidArgument "setpoint value") ∧
    runCalls (OmegaCN7500.set_pattern_step_setpoint inst p s v) m = [] := by
  simp only [OmegaCN7500.set_pattern_step_setpoint, _checkSetpointValue,
    _checkPatternNumber, _checkStepNumber]
  rw [checkInt_pass _ hp0 hp1, checkInt_pass _ hs0 hs1, checkNumerical_fail _ hv]
  exact ⟨rfl, rfl⟩

lemma set_ti_ok (inst : Inst) (m : Machine) (p s : ℤ) (v : ℚ)
    (hp0 : 0 ≤ p) (hp1 : p ≤ 7) (hs0 : 0 ≤ s) (hs1 : s ≤ 7)
    (hv0 : 0 ≤ v) (hv1 : v ≤ inst.time_max) :
    runRes (OmegaCN7500.set_pattern_step_time inst p s v) m = .ok () ∧
    runCalls (OmegaCN7500.set_pattern_step_time inst p s v) m =
      [.writeReg (8320 + 8 * p.toNat + s.toNat) v 0] := by
  interval_cases p <;> interval_cases s <;>
    (simp only [OmegaCN7500.set_pattern_step_time, _checkTimeValue]
     rw [checkNumerical_pass _ hv0 hv1]
     exact ⟨rfl, rfl⟩)

lemma set_ti_fail (inst : Inst) (m : Machine) (p s : ℤ) (v : ℚ)
    (hp0 : 0 ≤ p) (hp1 : p ≤ 7) (hs0 : 0 ≤ s) (hs1 : s ≤ 7)
    (hv : v < 0 ∨ inst.time_max < v) :
    runRes (OmegaCN7500.set_pattern_step_time inst p s v) m =
      .error (.invalidArgument "time value") ∧
    runCalls (OmegaCN7500.set_pattern_step_time inst p s v) m = [] := by
  simp only [OmegaCN7500.set_pattern_step_time, _checkTimeValue,
    _checkPatternNumber, _checkStepNumber]
  rw [checkInt_pass _ hp0 hp1, checkInt_pass _ hs0 hs1, checkNumerical_fail _ hv]
  exact ⟨rfl, rfl⟩

/-- Claim C1: the register map is bit-exact as specified — process value at
4096 (1 decimal), setpoint at 4097 (1 decimal), control mode at 4101
(0 decimals), run/stop bit 2068, start pattern number at 4144 (0 decimals),
output percentage at 4114 = 0x1012 (1 decimal); pattern-step setpoints occupy
8 contiguous addresses per pattern starting at 8192 (1 decimal), step durations
likewise start at 8320 (0 decimals); actual step uses 4160-4167, additional
cycles 4176-4183, link-to-pattern 4192-4199, one address per pattern. -/
theorem claim_C1 :
    (∀ p s : Fin 8,
      stepAddr setpoint_addresses ((p : ℕ) : ℤ) ((s : ℕ) : ℤ) =
        some (8192 + 8 * (p : ℕ) + (s : ℕ)) ∧
      stepAddr time_addresses ((p : ℕ) : ℤ) ((s : ℕ) : ℤ) =
        some (8320 + 8 * (p : ℕ) + (s : ℕ))) ∧
    (∀ p : Fin 8,
      pyIndex actual_step_addresses ((p : ℕ) : ℤ) = some (4160 + (p : ℕ)) ∧
      pyIndex additional_cycles_addresses ((p : ℕ) : ℤ) = some (4176 + (p : ℕ)) ∧
      pyIndex link_pattern_addresses ((p : ℕ) : ℤ) = some (4192 + (p : ℕ))) ∧
    runCalls OmegaCN7500.get_pv m0 = [.readReg 4096 1] ∧
    runCalls OmegaCN7500.get_setpoint m0 = [.readReg 4097 1] ∧
    runCalls (OmegaCN7500.set_setpoint ⟨1000, 900⟩ 100) m0 = [.writeReg 4097 100 1] ∧
    runCalls OmegaCN7500.get_control_mode m0 = [.readReg 4101 0] ∧
    runCalls (OmegaCN7500.set_control_mode 2) m0 = [.writeReg 4101 2 0] ∧
    runCalls OmegaCN7500.run m0 = [.writeBit 2068 1] ∧
    runCalls OmegaCN7500.stop m0 = [.writeBit 2068 0] ∧
    runCalls OmegaCN7500.is_running m0 = [.readBit 2068] ∧
    runCalls OmegaCN7500.get_start_pattern_no m0 = [.readReg 4144 0] ∧
    runCalls (OmegaCN7500.set_start_pattern_no 5) m0 = [.writeReg 4144 5 0] ∧
    runCalls OmegaCN7500.get_output1 m0 = [.readReg 4114 1] ∧
    (∀ p s : Fin 8,
      runCalls (OmegaCN7500.get_pattern_step_setpoint ((p : ℕ) : ℤ) ((s : ℕ) : ℤ)) m0 =
        [.readReg (8192 + 8 * (p : ℕ) + (s : ℕ)) 1] ∧
      runCalls (OmegaCN7500.get_pattern_step_time ((p : ℕ) : ℤ) ((s : ℕ) : ℤ)) m0 =
        [.readReg (8320 + 8 * (p : ℕ) + (s : ℕ)) 0]) ∧
    (∀ p : Fin 8,
      runCalls (OmegaCN7500.get_pattern_actual_step ((p : ℕ) : ℤ)) m0 =
        [.readReg (4160 + (p : ℕ)) 0] ∧
      runCalls (OmegaCN7500.get_pattern_additional_cycles ((p : ℕ) : ℤ)) m0 =
        [.readReg (4176 + (p : ℕ)) 0] ∧
      runCalls (OmegaCN7500.get_pattern_link_topattern ((p : ℕ) : ℤ)) m0 =
        [.readReg (4192 + (p : ℕ)) 0]) := by
  decide

/-- Claim C2: within the setpoint table and within the duration table, the
resolved register address is unique across all 64 (pattern, step) combinations
and strictly increasing in (pattern, step) lexicographic order. -/
theorem claim_C2 :
    (∀ p s p' s' : Fin 8,
      stepAddr setpoint_addresses ((p : ℕ) : ℤ) ((s : ℕ) : ℤ) =
          stepAddr setpoint_addresses ((p' : ℕ) : ℤ) ((s' : ℕ) : ℤ) →
        p = p' ∧ s = s') ∧
    (∀ p s p' s' : Fin 8,
      stepAddr time_addresses ((p : ℕ) : ℤ) ((s : ℕ) : ℤ) =
          stepAddr time_addresses ((p' : ℕ) : ℤ) ((s' : ℕ) : ℤ) →
        p = p' ∧ s = s') ∧
    (∀ p s p' s' : Fin 8,
      ((p : ℕ) < (p' : ℕ) ∨ (p = p' ∧ (s : ℕ) < (s' : ℕ))) →
        (stepAddr setpoint_addresses ((p : ℕ) : ℤ) ((s : ℕ) : ℤ)).getD 0 <
          (stepAddr setpoint_addresses ((p' : ℕ) : ℤ) ((s' : ℕ) : ℤ)).getD 0) ∧
    (∀ p s p' s' : Fin 8,
      ((p : ℕ) < (p' : ℕ) ∨ (p = p' ∧ (s : ℕ) < (s' : ℕ))) →
        (stepAddr time_addresses ((p : ℕ) : ℤ) ((s : ℕ) : ℤ)).getD 0 <
          (stepAddr time_addresses ((p' : ℕ) : ℤ) ((s' : ℕ) : ℤ)).getD 0) := by
  decide

/-- Claim C3 (refuting evidence): `set_all_pattern_variables` does not validate
its pattern index.  With the invalid pattern -1 the Python negative list index
silently resolves to pattern 7's registers and the method performs all 19
transport writes successfully, instead of rejecting before any I/O; with the
invalid pattern 8 it raises `IndexError` (from raw list indexing), not a
validation error. -/
theorem claim_C3_bug :
    runRes (OmegaCN7500.set_all_pattern_variables (-1)
      1 2 1 2 1 2 1 2 1 2 1 2 1 2 1 2 3 4 5) m0 = .ok () ∧
    runCalls (OmegaCN7500.set_all_pattern_variables (-1)
      1 2 1 2 1 2 1 2 1 2 1 2 1 2 1 2 3 4 5) m0 =
      [.writeReg 8248 1 1, .writeReg 8249 1 1, .writeReg 8250 1 1, .writeReg 8251 1 1,
       .writeReg 8252 1 1, .writeReg 8253 1 1, .writeReg 8254 1 1, .writeReg 8255 1 1,
       .writeReg 8376 2 0, .writeReg 8377 2 0, .writeReg 8378 2 0, .writeReg 8379 2 0,
       .writeReg 8380 2 0, .writeReg 8381 2 0, .writeReg 8382 2 0, .writeReg 8383 2 0,
       .writeReg 4167 3 0, .writeReg 4183 4 0, .writeReg 4199 5 0] ∧
    runRes (OmegaCN7500.set_all_pattern_variables 8
      1 2 1 2 1 2 1 2 1 2 1 2 1 2 1 2 3 4 5) m0 = .error .indexError ∧
    runCalls (OmegaCN7500.set_all_pattern_variables 8
      1 2 1 2 1 2 1 2 1 2 1 2 1 2 1 2 3 4 5) m0 = [] := by
  decide

/-- Claim C4 (refuting evidence): instead of failing with `InvalidArgument`,
`get_pattern_actual_step` returns a human-readable sentinel string for an
out-of-range pattern, and `set_pattern_actual_step` returns sentinel strings for
an out-of-range pattern or value (with zero transport calls in each case). -/
theorem claim_C4_bug :
    runRes (OmegaCN7500.get_pattern_actual_step 8) m0 =
      .ok (.str "Not a valid pattern number, must be 0-7") ∧
    runCalls (OmegaCN7500.get_pattern_actual_step 8) m0 = [] ∧
    runRes (OmegaCN7500.get_pattern_actual_step (-1)) m0 =
      .ok (.str "Not a valid pattern number, must be 0-7") ∧
    runRes (OmegaCN7500.set_pattern_actual_step 8 0) m0 =
      .ok (.str "Not a valid pattern number, must be 0-7") ∧
    runRes (OmegaCN7500.set_pattern_actual_step 0 9) m0 =
      .ok (.str "Not a valid step number, must be 0-7") ∧
    runCalls (OmegaCN7500.set_pattern_actual_step 0 9) m0 = [] := by
  decide

/-- Claim C5 (refuting evidence): `set_all_pattern_variables` performs no
validation of its 19 field values: with an out-of-range first setpoint (-100,
below every configured setpoint range) it succeeds and writes all 19 registers,
including the out-of-range value, instead of failing with `InvalidArgument` on
the first failing field. -/
theorem claim_C5_bug :
    runRes (OmegaCN7500.set_all_pattern_variables 0
      (-100) 2 1 2 1 2 1 2 1 2 1 2 1 2 1 2 3 4 5) m0 = .ok () ∧
    runCalls (OmegaCN7500.set_all_pattern_variables 0
      (-100) 2 1 2 1 2 1 2 1 2 1 2 1 2 1 2 3 4 5) m0 =
      [.writeReg 8192 (-100) 1, .writeReg 8193 1 1, .writeReg 8194 1 1, .writeReg 8195 1 1,
       .writeReg 8196 1 1, .writeReg 8197 1 1, .writeReg 8198 1 1, .writeReg 8199 1 1,
       .writeReg 8320 2 0, .writeReg 8321 2 0, .writeReg 8322 2 0, .writeReg 8323 2 0,
       .writeReg 8324 2 0, .writeReg 8325 2 0, .writeReg 8326 2 0, .writeReg 8327 2 0,
       .writeReg 4160 3 0, .writeReg 4176 4 0, .writeReg 4192 5 0] := by
  decide

/-- Claim C6 (refuting evidence): `get_all_pattern_variables` on a valid
pattern does read all 19 registers of that pattern, but prints them and returns
Python `None` rather than a structured record; on an out-of-range pattern it
also returns `None` without raising `InvalidArgument`. -/
theorem claim_C6_bug :
    runRes (OmegaCN7500.get_all_pattern_variables 3) m0 = .ok PyVal.none ∧
    runCalls (OmegaCN7500.get_all_pattern_variables 3) m0 =
      [.readReg 8216 1, .readReg 8217 1, .readReg 8218 1, .readReg 8219 1,
       .readReg 8220 1, .readReg 8221 1, .readReg 8222 1, .readReg 8223 1,
       .readReg 8344 0, .readReg 8345 0, .readReg 8346 0, .readReg 8347 0,
       .readReg 8348 0, .readReg 8349 0, .readReg 8350 0, .readReg 8351 0,
       .readReg 4163 0, .readReg 4179 0, .readReg 4195 0] ∧
    runRes (OmegaCN7500.get_all_pattern_variables 8) m0 = .ok PyVal.none ∧
    runCalls (OmegaCN7500.get_all_pattern_variables 8) m0 = [] := by
  decide

/-- Claim C9 (refuting evidence): for a valid pattern,
`set_pattern_additional_cycles` writes exactly when the value is in [0,99], but
the out-of-range behavior is not a symmetric `InvalidArgument`: value 100
returns a sentinel string and a negative value matches no branch at all, so the
method silently returns Python `None` — in neither case is an error raised. -/
theorem claim_C9_bug :
    runRes (OmegaCN7500.set_pattern_additional_cycles 0 50) m0 = .ok PyVal.none ∧
    runCalls (OmegaCN7500.set_pattern_additional_cycles 0 50) m0 = [.writeReg 4176 50 0] ∧
    runRes (OmegaCN7500.set_pattern_additional_cycles 0 100) m0 =
      .ok (.str "Not a valid number of additional cycles, must be 0-99") ∧
    runCalls (OmegaCN7500.set_pattern_additional_cycles 0 100) m0 = [] ∧
    runRes (OmegaCN7500.set_pattern_additional_cycles 0 (-5)) m0 = .ok PyVal.none ∧
    runCalls (OmegaCN7500.set_pattern_additional_cycles 0 (-5)) m0 = [] := by
  decide

/-- Claim C7: for valid pattern and step indices, `set_pattern_step_setpoint`
succeeds iff 0 ≤ value ≤ the instance's configured setpoint_max, and
`set_pattern_step_time` succeeds iff 0 ≤ value ≤ the instance's configured
time_max; an out-of-range value fails with `InvalidArgument` and performs zero
transport calls. -/
theorem claim_C7 (inst : Inst) (p s : ℤ)
    (hp0 : 0 ≤ p) (hp1 : p ≤ 7) (hs0 : 0 ≤ s) (hs1 : s ≤ 7)
    (v w : ℚ) (m : Machine) :
    (0 ≤ v ∧ v ≤ inst.setpoint_max →
      runRes (OmegaCN7500.set_pattern_step_setpoint inst p s v) m = .ok ()) ∧
    (¬(0 ≤ v ∧ v ≤ inst.setpoint_max) →
      runRes (OmegaCN7500.set_pattern_step_setpoint inst p s v) m =
        .error (.invalidArgument "setpoint value") ∧
      runCalls (OmegaCN7500.set_pattern_step_setpoint inst p s v) m = []) ∧
    (0 ≤ w ∧ w ≤ inst.time_max →
      runRes (OmegaCN7500.set_pattern_step_time inst p s w) m = .ok ()) ∧
    (¬(0 ≤ w ∧ w ≤ inst.time_max) →
      runRes (OmegaCN7500.set_pattern_step_time inst p s w) m =
        .error (.invalidArgument "time value") ∧
      runCalls (OmegaCN7500.set_pattern_step_time inst p s w) m = []) := by
  refine ⟨fun hv => (set_sp_ok inst m p s v hp0 hp1 hs0 hs1 hv.1 hv.2).1,
          fun hv => ?_,
          fun hw => (set_ti_ok inst m p s w hp0 hp1 hs0 hs1 hw.1 hw.2).1,
          fun hw => ?_⟩
  · have h : v < 0 ∨ inst.setpoint_max < v := by
      rcases not_and_or.mp hv with h | h
      · exact Or.inl (not_le.mp h)
      · exact Or.inr (not_le.mp h)
    exact set_sp_fail inst m p s v hp0 hp1 hs0 hs1 h
  · have h : w < 0 ∨ inst.time_max < w := by
      rcases not_and_or.mp hw with h | h
      · exact Or.inl (not_le.mp h)
      · exact Or.inr (not_le.mp h)
    exact set_ti_fail inst m p s w hp0 hp1 hs0 hs1 h

/-- Witness for claim C7 on an instance configured with setpoint_max 1000 and
time_max 900: value 100 succeeds, value -1 fails with `InvalidArgument` and no
transport call, time 901 fails likewise. -/
theorem claim_C7_witness :
    runRes (OmegaCN7500.set_pattern_step_setpoint ⟨1000, 900⟩ 0 0 100) m0 = .ok () ∧
    (runRes (OmegaCN7500.set_pattern_step_setpoint ⟨1000, 900⟩ 0 0 (-1)) m0 =
      .error (.invalidArgument "setpoint value") ∧
     runCalls (OmegaCN7500.set_pattern_step_setpoint ⟨1000, 900⟩ 0 0 (-1)) m0 = []) ∧
    runRes (OmegaCN7500.set_pattern_step_time ⟨1000, 900⟩ 0 0 100) m0 = .ok () ∧
    (runRes (OmegaCN7500.set_pattern_step_time ⟨1000, 900⟩ 0 0 901) m0 =
      .error (.invalidArgument "time value") ∧
     runCalls (OmegaCN7500.set_pattern_step_time ⟨1000, 900⟩ 0 0 901) m0 = []) :=
  ⟨(claim_C7 ⟨1000, 900⟩ 0 0 (by decide) (by decide) (by decide) (by decide)
      100 100 m0).1 (by decide),
   (claim_C7 ⟨1000, 900⟩ 0 0 (by decide) (by decide) (by decide) (by decide)
      (-1) 901 m0).2.1 (by decide),
   (claim_C7 ⟨1000, 900⟩ 0 0 (by decide) (by decide) (by decide) (by decide)
      100 100 m0).2.2.1 (by decide),
   (claim_C7 ⟨1000, 900⟩ 0 0 (by decide) (by decide) (by decide) (by decide)
      (-1) 901 m0).2.2.2 (by decide)⟩

/-- Device state whose control-mode register 4101 holds the given code. -/
def mkMode (c : ℚ) : Machine := ⟨fun a => if a = 4101 then c else 0, fun _ => 0⟩

lemma mkMode_regs (c : ℚ) : (mkMode c).regs 4101 = c := by
  show (if (4101 : ℕ) = 4101 then c else 0) = c
  exact if_pos rfl

lemma bind_def {α β : Type} (x : M α) (f : α → M β) : x >>= f = Mbind x f := rfl

/-- Claim C8: `get_control_mode` maps device codes 0,1,2,3 to PID, ON/OFF,
Manual Tuning, Program, and fails with `ParseError` for every device code
outside the `CONTROL_MODES` table (e.g. 9); `set_control_mode` fails with
`InvalidArgument` for every input code outside 0..3 with zero transport calls;
and after `set_control_mode 2` on an idempotent mock transport,
`get_control_mode` returns "Manual Tuning". -/
theorem claim_C8 :
    runRes OmegaCN7500.get_control_mode (mkMode 0) = .ok "PID" ∧
    runRes OmegaCN7500.get_control_mode (mkMode 1) = .ok "ON/OFF" ∧
    runRes OmegaCN7500.get_control_mode (mkMode 2) = .ok "Manual Tuning" ∧
    runRes OmegaCN7500.get_control_mode (mkMode 3) = .ok "Program" ∧
    (∀ c : ℚ, CONTROL_MODES c = Option.none →
      runRes OmegaCN7500.get_control_mode (mkMode c) =
        .error (.parseError "Could not parse the control mode value")) ∧
    (∀ (v : ℤ) (m : Machine), v < 0 ∨ 3 < v →
      runRes (OmegaCN7500.set_control_mode v) m =
        .error (.invalidArgument "control mode") ∧
      runCalls (OmegaCN7500.set_control_mode v) m = []) ∧
    runCalls (OmegaCN7500.set_control_mode 2) m0 = [.writeReg 4101 2 0] ∧
    runRes OmegaCN7500.get_control_mode
      (runMachine (OmegaCN7500.set_control_mode 2) m0) = .ok "Manual Tuning" := by
  refine ⟨by decide, by decide, by decide, by decide, ?_, ?_, by decide, by decide⟩
  · intro c h
    simp only [runRes, OmegaCN7500.get_control_mode, bind_def, Mbind, read_register,
      mkMode_regs, h]
    rfl
  · intro v m hv
    simp only [OmegaCN7500.set_control_mode]
    rw [checkInt_fail _ hv]
    exact ⟨rfl, rfl⟩

/-- Witness for claim C8 at device code 9 and input code 9. -/
theorem claim_C8_witness :
    CONTROL_MODES 9 = Option.none ∧
    runRes OmegaCN7500.get_control_mode (mkMode 9) =
      .error (.parseError "Could not parse the control mode value") ∧
    ((9 : ℤ) < 0 ∨ 3 < (9 : ℤ)) ∧
    runRes (OmegaCN7500.set_control_mode 9) m0 =
      .error (.invalidArgument "control mode") ∧
    runCalls (OmegaCN7500.set_control_mode 9) m0 = [] :=
  ⟨by decide, claim_C8.2.2.2.2.1 9 (by decide), by decide,
   (claim_C8.2.2.2.2.2.1 9 m0 (by decide)).1,
   (claim_C8.2.2.2.2.2.1 9 m0 (by decide)).2⟩

/-- Claim C10: for valid pattern and step indices and an in-range value,
`set_pattern_step_setpoint` performs exactly one transport call — a single
write to register 8192 + 8*pattern + step with 1 decimal — and
`set_pattern_step_time` performs exactly one write to register
8320 + 8*pattern + step with 0 decimals. -/
theorem claim_C10 (inst : Inst) (p s : ℤ)
    (hp0 : 0 ≤ p) (hp1 : p ≤ 7) (hs0 : 0 ≤ s) (hs1 : s ≤ 7)
    (v w : ℚ) (m : Machine)
    (hv0 : 0 ≤ v) (hv1 : v ≤ inst.setpoint_max)
    (hw0 : 0 ≤ w) (hw1 : w ≤ inst.time_max) :
    runCalls (OmegaCN7500.set_pattern_step_setpoint inst p s v) m =
      [.writeReg (8192 + 8 * p.toNat + s.toNat) v 1] ∧
    runCalls (OmegaCN7500.set_pattern_step_time inst p s w) m =
      [.writeReg (8320 + 8 * p.toNat + s.toNat) w 0] :=
  ⟨(set_sp_ok inst m p s v hp0 hp1 hs0 hs1 hv0 hv1).2,
   (set_ti_ok inst m p s w hp0 hp1 hs0 hs1 hw0 hw1).2⟩

/-- Witness for claim C10 at pattern 2, step 5: the single setpoint write goes
to register 8213 and the single time write to register 8341. -/
theorem claim_C10_witness :
    runCalls (OmegaCN7500.set_pattern_step_setpoint ⟨1000, 900⟩ 2 5 100) m0 =
      [.writeReg 8213 100 1] ∧
    runCalls (OmegaCN7500.set_pattern_step_time ⟨1000, 900⟩ 2 5 60) m0 =
      [.writeReg 8341 60 0] :=
  claim_C10 ⟨1000, 900⟩ 2 5 (by decide) (by decide) (by decide) (by decide)
    100 60 m0 (by decide) (by decide) (by decide) (by decide)
